import Mathlib

/-!
Shallow embedding of the RTT terminal text editor core
(src/editor.rs and src/terminal.rs), together with the buffer
component (`Document` / `Row`) which the editor calls into.

Machine integers (`usize`, `u16`, `u8`) are modelled as `Nat`;
the source only uses saturating arithmetic (`saturating_add`,
`saturating_sub`) on them, which on `Nat` is ordinary `+` and
truncated `-`.  Fallible or potentially blocking operations
(the prompt loop, the key-reading loop, the run loop) consume an
explicit finite list of incoming key events and return `Option`,
with `none` standing for "the loop is still blocked waiting for
further input" (or, for `read_key`, "no event ever arrives").
-/

/-- Cursor / offset position, `editor.rs` `struct Position { x, y }`. -/
structure Position where
  x : Nat
  y : Nat
deriving Repr, DecidableEq

/-- One line of text.  The source's `Row` keeps a raw string plus a cached
rendered (tab-expanded) string; only the raw character sequence matters for
the buffer/cursor claims, so a row is its raw character list. -/
abbrev Row := List Char

/-- Modelled from the spec: the `Document` component (`document.rs` is not
part of the given sources).  Per spec §3 "Buffer": an ordered sequence of
lines (index = 0-based line number), an optional file path, and a dirty
flag. -/
structure Document where
  rows : List Row
  file_name : Option (List Char)
  dirty : Bool
deriving Repr, DecidableEq

/-- `Document::len`: number of lines. -/
def Document.len (d : Document) : Nat := d.rows.length

/-- `Document::row`: line at an index, absent when out of range
(spec §4.2 `line_at`). -/
def Document.row (d : Document) (y : Nat) : Option Row := d.rows.get? y

/-- `Document::is_empty` (spec §4.2): true iff the line count is 0. -/
def Document.is_empty (d : Document) : Bool := d.rows.isEmpty

/-- `Document::is_dirty` (spec §4.2). -/
def Document.is_dirty (d : Document) : Bool := d.dirty

/-- Length of line `y`, 0 if line `y` is absent — the editor recomputes
this as `if let Some(row) = self.document.row(y) { row.len() } else { 0 }`. -/
def lineLen (d : Document) (y : Nat) : Nat :=
  match d.row y with
  | some r => r.length
  | none => 0

/-- Modelled from the spec: Rust `char::is_control` (Unicode category Cc:
C0 controls, DEL, C1 controls), used by the prompt to reject control
characters. -/
def charIsControl (c : Char) : Bool :=
  c.toNat < 32 || (127 ≤ c.toNat && c.toNat ≤ 159)

/-- Modelled from the spec: `Document::insert` = spec §4.2 `insert_char`
(`document.rs` is not part of the given sources).  In order: if
`position.y == line_count`, append a new single-character line; else if the
character is the newline command, split line `y` at column `x`, inserting
the tail as a new line immediately after; else insert the character into
line `y` at column `x` (the in-line insert clamps the column to
`[0, length]`, spec §4.1).  Always sets dirty. -/
def Document.insert (d : Document) (p : Position) (c : Char) : Document :=
  if p.y = d.rows.length then
    { d with rows := d.rows ++ [[c]], dirty := true }
  else
    match d.rows.get? p.y with
    | none => { d with dirty := true }
    | some r =>
      if c = '\n' then
        { d with
          rows := d.rows.take p.y ++ [r.take p.x, r.drop p.x] ++ d.rows.drop (p.y + 1),
          dirty := true }
      else
        { d with
          rows := d.rows.set p.y (r.take p.x ++ [c] ++ r.drop p.x),
          dirty := true }

/-- Modelled from the spec: `Document::delete` = spec §4.2 `delete_char`
(`document.rs` is not part of the given sources).  No-op if
`position.y ≥ line_count`; if `position.x` equals the length of line `y`
and a next line exists, join the next line onto line `y` and remove it;
else delete the character at column `x` of line `y` (no-op when
`x ≥ length`, spec §4.1).  Dirty is set on any actual mutation. -/
def Document.delete (d : Document) (p : Position) : Document :=
  if p.y < d.rows.length then
    let r := d.rows.getD p.y []
    if p.x = r.length then
      if p.y + 1 < d.rows.length then
        { d with
          rows := d.rows.take p.y ++ [r ++ d.rows.getD (p.y + 1) []] ++ d.rows.drop (p.y + 2),
          dirty := true }
      else d
    else if p.x < r.length then
      { d with rows := d.rows.set p.y (r.take p.x ++ r.drop (p.x + 1)), dirty := true }
    else d
  else d

/-- The key codes the editor distinguishes (crossterm `KeyCode`; spec §6:
a character, or a named key Up/Down/Left/Right/PageUp/PageDown/Home/End/
Delete/Backspace/Escape/Enter).  `null` stands for any other key code. -/
inductive KeyCode where
  | char (c : Char)
  | enter
  | backspace
  | delete
  | up
  | down
  | left
  | right
  | pageUp
  | pageDown
  | home
  | endKey
  | esc
  | null
deriving Repr, DecidableEq

/-- Modifier flags of a key event (crossterm `KeyModifiers`); the source
only ever matches `NONE` and `CONTROL`, `OTHER` stands for the rest. -/
inductive KeyModifiers where
  | NONE
  | CONTROL
  | OTHER
deriving Repr, DecidableEq

/-- A key event: code plus modifiers (crossterm `KeyEvent`). -/
structure KeyEvent where
  code : KeyCode
  modifiers : KeyModifiers
deriving Repr, DecidableEq

/-- The editor state (`editor.rs` `struct Editor`).  The terminal is
reduced to its queried viewport size; the status message keeps only its
text (its timestamp only drives display fade-out). -/
structure Editor where
  should_quit : Bool
  termWidth : Nat
  termHeight : Nat
  cursor_position : Position
  offset : Position
  document : Document
  status_message : String
  quit_times : Nat
deriving Repr, DecidableEq

/-- `editor.rs` `const QUIT_TIMES: u8 = 3`. -/
def QUIT_TIMES : Nat := 3

/-- The quit warning status text built by `process_keypress`
(`format!("WARNING! ... Press Ctrl-Q {} more times to quit.", quit_times)`). -/
def quitWarning (n : Nat) : String :=
  "WARNING! File has unsaved changes. Press Ctrl-Q " ++ toString n ++ " more times to quit."

/-- The cursor-movement transitions of `Editor::move_cursor`
(editor.rs:221-273), before the final clamp: `height` is the document
line count, `width` the length of the line the cursor starts on. -/
def cursorTransition (d : Document) (terminalHeight : Nat) (p : Position) (key : KeyCode) :
    Position :=
  let height := d.len
  let width := lineLen d p.y
  match key with
  | .up => ⟨p.x, p.y - 1⟩
  | .down => if p.y < height then ⟨p.x, p.y + 1⟩ else p
  | .left =>
    if 0 < p.x then ⟨p.x - 1, p.y⟩
    else if 0 < p.y then ⟨lineLen d (p.y - 1), p.y - 1⟩
    else p
  | .right =>
    if p.x < width then ⟨p.x + 1, p.y⟩
    else if p.y < height then ⟨0, p.y + 1⟩
    else p
  | .pageUp => ⟨p.x, if terminalHeight < p.y then p.y - terminalHeight else 0⟩
  | .pageDown => ⟨p.x, if p.y + terminalHeight < height then p.y + terminalHeight else height⟩
  | .home => ⟨0, p.y⟩
  | .endKey => ⟨width, p.y⟩
  | _ => p

/-- `Editor::move_cursor` (editor.rs:221-285): apply the transition, then
re-read the (possibly new) line's width and clamp the column to it
(`if x > width { x = width }`). -/
def move_cursor (d : Document) (terminalHeight : Nat) (p : Position) (key : KeyCode) :
    Position :=
  let q := cursorTransition d terminalHeight p key
  let width := lineLen d q.y
  ⟨if width < q.x then width else q.x, q.y⟩

/-- `Editor::scroll` (editor.rs:204-219): pull the offset up/left to the
cursor, or push it just far enough down/right that the cursor is the last
visible row/column. -/
def scroll (width height : Nat) (c o : Position) : Position :=
  let oy := if c.y < o.y then c.y
    else if o.y + height ≤ c.y then c.y - height + 1
    else o.y
  let ox := if c.x < o.x then c.x
    else if o.x + width ≤ c.x then c.x - width + 1
    else o.x
  ⟨ox, oy⟩

/-- State update `self.scroll()` inside the editor. -/
def applyScroll (e : Editor) : Editor :=
  { e with offset := scroll e.termWidth e.termHeight e.cursor_position e.offset }

/-- The tail of `process_keypress` (editor.rs:151-154): after the dispatch,
a quit counter below `QUIT_TIMES` is reset to `QUIT_TIMES` and the status
message cleared. -/
def resetQuit (e : Editor) : Editor :=
  if e.quit_times < QUIT_TIMES then
    { e with quit_times := QUIT_TIMES, status_message := "" }
  else e

/-- The steps `process_keypress` runs after the dispatch `match`
(editor.rs:150-154): recompute scroll, then reset the quit counter. -/
def afterKey (e : Editor) : Editor := resetQuit (applyScroll e)

/-- `self.move_cursor(key)` as a state update. -/
def moveCursorE (e : Editor) (key : KeyCode) : Editor :=
  { e with cursor_position := move_cursor e.document e.termHeight e.cursor_position key }

/-- The prompt loop of `Editor::prompt` (editor.rs:161-183) over a list of
incoming key events, carrying the accumulated input: Backspace (no
modifiers) trims one trailing character; `Char('\n')` breaks returning the
accumulated input; any other non-control character is appended; Escape
clears the input and breaks; everything else is ignored.  `none` means the
supplied events ran out with the loop still waiting (the real loop blocks);
`some (acc, rest)` gives the accumulated input at the break and the
remaining unread events. -/
def promptLoop : List KeyEvent → List Char → Option (List Char × List KeyEvent)
  | [], _ => none
  | k :: rest, acc =>
    match k.code, k.modifiers with
    | .backspace, .NONE => promptLoop rest (if acc.isEmpty then acc else acc.dropLast)
    | .char c, .NONE =>
      if c = '\n' then some (acc, rest)
      else if charIsControl c then promptLoop rest acc
      else promptLoop rest (acc ++ [c])
    | .esc, .NONE => some ([], rest)
    | _, _ => promptLoop rest acc

/-- `Editor::prompt` (editor.rs:159-190): run the loop from an empty
accumulator; an empty result at the break becomes `none` ("no value"). -/
def promptRun (keys : List KeyEvent) : Option (Option (List Char) × List KeyEvent) :=
  match promptLoop keys [] with
  | none => none
  | some (r, rest) => some (if r.isEmpty then none else some r, rest)

/-- Modelled from the spec: the effect of `Document::save` (spec §4.2;
`document.rs` is not part of the given sources) as seen by
`Editor::save`: the file-system outcome is the oracle `saveOk`; success
clears the dirty flag and yields the success status, failure leaves the
document unchanged and yields the failure status (editor.rs:113-117). -/
def doSave (saveOk : Bool) (e : Editor) : Editor :=
  if saveOk then
    { e with document := { e.document with dirty := false },
             status_message := "File saved successfully." }
  else
    { e with status_message := "Error writing file!" }

/-- `Editor::save` (editor.rs:103-118).  When no file name is known it
runs the prompt on the incoming events; a `none` prompt result aborts with
status "Save aborted." and without touching the document.  The returned
`Bool` records whether `Document::save` was invoked; the returned list is
the events left unread.  The outer `none` means the prompt never
returned. -/
def Editor.save (saveOk : Bool) (e : Editor) (keys : List KeyEvent) :
    Option (Editor × Bool × List KeyEvent) :=
  match e.document.file_name with
  | none =>
    match promptRun keys with
    | none => none
    | some (none, rest) =>
      some ({ e with status_message := "Save aborted." }, false, rest)
    | some (some name, rest) =>
      some (doSave saveOk { e with document := { e.document with file_name := some name } },
            true, rest)
  | some _ => some (doSave saveOk e, true, keys)

/-- `Editor::process_keypress` (editor.rs:120-156) on one key event `ev`,
with `rest` the events still pending behind it (consumed only by the save
prompt).  Returns the new state and the still-unread events; `none` means
a nested prompt never returned.  Every branch falls through to
`afterKey` (scroll + quit-counter reset) except the quit warning, which
returns early. -/
def process_keypress (saveOk : Bool) (e : Editor) (ev : KeyEvent) (rest : List KeyEvent) :
    Option (Editor × List KeyEvent) :=
  match ev.code, ev.modifiers with
  | .char c, .CONTROL =>
    if c = 'q' then
      if 0 < e.quit_times ∧ e.document.is_dirty then
        some ({ e with status_message := quitWarning e.quit_times,
                       quit_times := e.quit_times - 1 }, rest)
      else
        some (afterKey { e with should_quit := true }, rest)
    else if c = 's' then
      match e.save saveOk rest with
      | none => none
      | some (e', _, rest') => some (afterKey e', rest')
    else
      some (afterKey e, rest)
  | .char c, .NONE =>
    let e' := { e with document := e.document.insert e.cursor_position c }
    some (afterKey (moveCursorE e' .right), rest)
  | .delete, .NONE =>
    some (afterKey { e with document := e.document.delete e.cursor_position }, rest)
  | .backspace, .NONE =>
    if 0 < e.cursor_position.x ∨ 0 < e.cursor_position.y then
      let e' := moveCursorE e .left
      some (afterKey { e' with document := e'.document.delete e'.cursor_position }, rest)
    else
      some (afterKey e, rest)
  | .up, .NONE => some (afterKey (moveCursorE e .up), rest)
  | .down, .NONE => some (afterKey (moveCursorE e .down), rest)
  | .left, .NONE => some (afterKey (moveCursorE e .left), rest)
  | .right, .NONE => some (afterKey (moveCursorE e .right), rest)
  | _, _ => some (afterKey e, rest)

/-- The prompt loop consumes at least the events it read: the leftover
list is no longer than the input list. -/
theorem promptLoop_length (keys : List KeyEvent) :
    ∀ acc r rest, promptLoop keys acc = some (r, rest) → rest.length ≤ keys.length := by
  induction keys with
  | nil => intro acc r rest h; simp [promptLoop] at h
  | cons k tl ih =>
    intro acc r rest h
    simp only [promptLoop] at h
    split at h
    · exact Nat.le_succ_of_le (ih _ _ _ h)
    · split at h
      · obtain ⟨rfl, rfl⟩ := Prod.mk.injEq .. ▸ Option.some.injEq .. ▸ h
        exact Nat.le_succ _
      · split at h
        · exact Nat.le_succ_of_le (ih _ _ _ h)
        · exact Nat.le_succ_of_le (ih _ _ _ h)
    · obtain ⟨rfl, rfl⟩ := Prod.mk.injEq .. ▸ Option.some.injEq .. ▸ h
      exact Nat.le_succ _
    · exact Nat.le_succ_of_le (ih _ _ _ h)

/-- Terminal events as delivered by the event read call (crossterm
`Event`): a key event, or one of the non-key events the editor never
looks at. -/
inductive TEvent where
  | key (k : KeyEvent)
  | mouse
  | resize
  | focusGained
  | focusLost
  | paste
deriving Repr, DecidableEq

/-- One outcome of the underlying `event::read()` call: a terminal event,
or an I/O error. -/
inductive ReadResult where
  | ok (e : TEvent)
  | err (msg : String)
deriving Repr, DecidableEq

/-- `Terminal::read_key` (terminal.rs:53-59) over a list of outcomes of
the underlying reads: loop until `Ok(Event::Key(k))`, silently skipping
errors and non-key events.  The value kept is the whole Rust return value
`Result<KeyEvent, Error>`; `none` means the outcomes ran out with the loop
still reading. -/
def read_key : List ReadResult → Option (Except String KeyEvent)
  | [] => none
  | .ok (.key k) :: _ => some (Except.ok k)
  | _ :: rest => read_key rest

/-- `Editor::save` leaves a leftover event list no longer than its input. -/
theorem save_length (saveOk : Bool) (e : Editor) (keys : List KeyEvent)
    (e' : Editor) (inv : Bool) (rest : List KeyEvent)
    (h : e.save saveOk keys = some (e', inv, rest)) : rest.length ≤ keys.length := by
  unfold Editor.save at h
  split at h
  · unfold promptRun at h
    rcases hp : promptLoop keys [] with _ | ⟨r, left⟩
    · simp [hp] at h
    · have hl := promptLoop_length keys [] r left hp
      rw [hp] at h
      by_cases hr : r.isEmpty <;>
        · simp only [hr, if_pos, if_neg, ite_true, ite_false, Bool.false_eq_true,
            Option.some.injEq, Prod.mk.injEq] at h
          obtain ⟨-, -, rfl⟩ := h
          exact hl
  · simp only [Option.some.injEq, Prod.mk.injEq] at h
    obtain ⟨-, -, rfl⟩ := h
    exact Nat.le_refl _

/-- `process_keypress` leaves a leftover event list no longer than the
pending list it was given. -/
theorem process_keypress_length (saveOk : Bool) (e : Editor) (ev : KeyEvent)
    (rest : List KeyEvent) (e' : Editor) (rest' : List KeyEvent)
    (h : process_keypress saveOk e ev rest = some (e', rest')) :
    rest'.length ≤ rest.length := by
  unfold process_keypress at h
  split at h
  all_goals first
  | (simp only [Option.some.injEq, Prod.mk.injEq] at h; obtain ⟨-, rfl⟩ := h; exact Nat.le_refl _)
  | skip
  case _ c =>
    split at h
    · split at h <;>
        (simp only [Option.some.injEq, Prod.mk.injEq] at h; obtain ⟨-, rfl⟩ := h;
         exact Nat.le_refl _)
    · split at h
      · rcases hs : e.save saveOk rest with _ | ⟨es, invs, rests⟩
        · rw [hs] at h; simp at h
        · rw [hs] at h
          simp only [Option.some.injEq, Prod.mk.injEq] at h
          obtain ⟨-, rfl⟩ := h
          exact save_length saveOk e rest es invs rests hs
      · simp only [Option.some.injEq, Prod.mk.injEq] at h
        obtain ⟨-, rfl⟩ := h
        exact Nat.le_refl _
  case _ =>
    split at h <;>
      (simp only [Option.some.injEq, Prod.mk.injEq] at h; obtain ⟨-, rfl⟩ := h;
       exact Nat.le_refl _)

/-- The run loop of `Editor::run` (editor.rs:44-56) over a finite list of
incoming key events: stop when `should_quit` is observed, otherwise
process the next key (which may itself consume further events through the
save prompt) and continue on whatever events remain.  `none` means a
nested prompt never returned. -/
def runKeysAux (saveOk : Bool) : Nat → Editor → List KeyEvent → Option Editor
  | _, e, [] => some e
  | 0, _, _ :: _ => none
  | fuel + 1, e, k :: rest =>
    if e.should_quit then some e
    else
      match process_keypress saveOk e k rest with
      | none => none
      | some (e', rest') => runKeysAux saveOk fuel e' rest'

/-- The run loop, started with enough fuel: every iteration consumes at
least the event it dispatches on (`process_keypress_length`), so
`keys.length` iterations always reach the end of the list and the fuel
cut-off never fires. -/
def runKeys (saveOk : Bool) (e : Editor) (keys : List KeyEvent) : Option Editor :=
  runKeysAux saveOk keys.length e keys

/-- The editor state `Editor::default` constructs (editor.rs:58-82), for a
given viewport size and starting document: cursor and offset at the
origin, quit counter full, not quitting. -/
def initialEditor (w h : Nat) (d : Document) : Editor :=
  { should_quit := false
    termWidth := w
    termHeight := h
    cursor_position := ⟨0, 0⟩
    offset := ⟨0, 0⟩
    document := d
    status_message := "Help: Ctrl-S = save | Ctrl-Q = quit"
    quit_times := QUIT_TIMES }

/-- The viewport invariant (spec §3 ViewState): the cursor lies inside the
window spanned by the offset and the viewport dimensions, on both axes. -/
def viewInv (e : Editor) : Prop :=
  e.offset.y ≤ e.cursor_position.y ∧
  e.cursor_position.y < e.offset.y + e.termHeight ∧
  e.offset.x ≤ e.cursor_position.x ∧
  e.cursor_position.x < e.offset.x + e.termWidth

instance (e : Editor) : Decidable (viewInv e) := by
  unfold viewInv; infer_instance

/-- One scroll recomputation establishes the viewport invariant outright,
for any prior offset, as long as both viewport dimensions are positive. -/
theorem scroll_establishes (width height : Nat) (c o : Position)
    (hw : 1 ≤ width) (hh : 1 ≤ height) :
    (scroll width height c o).y ≤ c.y ∧ c.y < (scroll width height c o).y + height ∧
    (scroll width height c o).x ≤ c.x ∧ c.x < (scroll width height c o).x + width := by
  unfold scroll
  dsimp only
  constructor
  · split
    · exact Nat.le_refl _
    · split <;> omega
  constructor
  · split
    · omega
    · split <;> omega
  constructor
  · split
    · exact Nat.le_refl _
    · split <;> omega
  · split
    · omega
    · split <;> omega

/-- `resetQuit` only touches the quit counter and the status message. -/
theorem resetQuit_frame (e : Editor) :
    (resetQuit e).should_quit = e.should_quit ∧
    (resetQuit e).termWidth = e.termWidth ∧
    (resetQuit e).termHeight = e.termHeight ∧
    (resetQuit e).cursor_position = e.cursor_position ∧
    (resetQuit e).offset = e.offset ∧
    (resetQuit e).document = e.document := by
  unfold resetQuit
  by_cases h : e.quit_times < QUIT_TIMES <;> simp [h]

/-- `afterKey` (scroll then quit-counter reset) yields a state satisfying
the viewport invariant, whatever state it is applied to, keeping the
document, cursor, dimensions and quit flag. -/
theorem afterKey_inv (e : Editor) (hw : 1 ≤ e.termWidth) (hh : 1 ≤ e.termHeight) :
    viewInv (afterKey e) ∧
    (afterKey e).termWidth = e.termWidth ∧
    (afterKey e).termHeight = e.termHeight ∧
    (afterKey e).cursor_position = e.cursor_position ∧
    (afterKey e).document = e.document ∧
    (afterKey e).should_quit = e.should_quit := by
  have hf := resetQuit_frame (applyScroll e)
  have hs := scroll_establishes e.termWidth e.termHeight e.cursor_position e.offset hw hh
  unfold afterKey
  refine ⟨?_, ?_, ?_, ?_, ?_, ?_⟩
  · unfold viewInv
    rw [hf.2.1, hf.2.2.1, hf.2.2.2.1, hf.2.2.2.2.1]
    exact ⟨hs.1, hs.2.1, hs.2.2.1, hs.2.2.2⟩
  · exact hf.2.1
  · exact hf.2.2.1
  · exact hf.2.2.2.1
  · exact hf.2.2.2.2.2
  · exact hf.1

/-- `Editor::save` only touches the document and the status message: the
viewport fields, quit flag and quit counter pass through unchanged. -/
theorem save_frame (saveOk : Bool) (e : Editor) (keys : List KeyEvent)
    (e' : Editor) (inv : Bool) (rest : List KeyEvent)
    (h : e.save saveOk keys = some (e', inv, rest)) :
    e'.termWidth = e.termWidth ∧ e'.termHeight = e.termHeight ∧
    e'.cursor_position = e.cursor_position ∧ e'.offset = e.offset ∧
    e'.should_quit = e.should_quit ∧ e'.quit_times = e.quit_times := by
  unfold Editor.save at h
  split at h
  · rcases hp : promptRun keys with _ | ⟨r, left⟩
    · rw [hp] at h; simp at h
    · rw [hp] at h
      rcases r with _ | name <;>
        simp only [Option.some.injEq, Prod.mk.injEq] at h <;>
        obtain ⟨rfl, -, -⟩ := h
      · exact ⟨rfl, rfl, rfl, rfl, rfl, rfl⟩
      · unfold doSave
        split <;> exact ⟨rfl, rfl, rfl, rfl, rfl, rfl⟩
  · simp only [Option.some.injEq, Prod.mk.injEq] at h
    obtain ⟨rfl, -, -⟩ := h
    unfold doSave
    split <;> exact ⟨rfl, rfl, rfl, rfl, rfl, rfl⟩

/-- Helper for the dispatch branches that fall through to `afterKey`:
the viewport invariant holds afterwards and the viewport dimensions are
the original ones. -/
theorem afterKey_case (e₁ : Editor) (w h : Nat)
    (hW : e₁.termWidth = w) (hH : e₁.termHeight = h)
    (hw : 1 ≤ w) (hh : 1 ≤ h) :
    viewInv (afterKey e₁) ∧ (afterKey e₁).termWidth = w ∧ (afterKey e₁).termHeight = h := by
  obtain ⟨h1, h2, h3, -, -, -⟩ := afterKey_inv e₁ (by rw [hW]; exact hw) (by rw [hH]; exact hh)
  exact ⟨h1, by rw [h2, hW], by rw [h3, hH]⟩

/-- Every completed `process_keypress` step preserves the viewport
invariant (for positive viewport dimensions) and the viewport
dimensions themselves. -/
theorem process_keypress_inv (saveOk : Bool) (e : Editor) (ev : KeyEvent)
    (rest : List KeyEvent) (e' : Editor) (rest' : List KeyEvent)
    (hw : 1 ≤ e.termWidth) (hh : 1 ≤ e.termHeight) (hinv : viewInv e)
    (h : process_keypress saveOk e ev rest = some (e', rest')) :
    viewInv e' ∧ e'.termWidth = e.termWidth ∧ e'.termHeight = e.termHeight := by
  unfold process_keypress at h
  split at h
  · split at h
    · split at h
      · simp only [Option.some.injEq, Prod.mk.injEq] at h
        obtain ⟨rfl, rfl⟩ := h
        refine ⟨?_, rfl, rfl⟩
        unfold viewInv at hinv ⊢
        exact hinv
      · simp only [Option.some.injEq, Prod.mk.injEq] at h
        obtain ⟨rfl, rfl⟩ := h
        exact afterKey_case _ _ _ rfl rfl hw hh
    · split at h
      · rcases hs : Editor.save saveOk e rest with _ | ⟨es, invs, rests⟩
        · rw [hs] at h; simp at h
        · rw [hs] at h
          simp only [Option.some.injEq, Prod.mk.injEq] at h
          obtain ⟨rfl, rfl⟩ := h
          obtain ⟨hW, hH, -, -, -, -⟩ := save_frame saveOk e rest es invs rests hs
          exact afterKey_case es e.termWidth e.termHeight hW hH hw hh
      · simp only [Option.some.injEq, Prod.mk.injEq] at h
        obtain ⟨rfl, rfl⟩ := h
        exact afterKey_case _ _ _ rfl rfl hw hh
  all_goals try
    (simp only [Option.some.injEq, Prod.mk.injEq] at h;
     obtain ⟨rfl, rfl⟩ := h;
     exact afterKey_case _ _ _ rfl rfl hw hh)
  · split at h <;>
      (simp only [Option.some.injEq, Prod.mk.injEq] at h;
       obtain ⟨rfl, rfl⟩ := h;
       exact afterKey_case _ _ _ rfl rfl hw hh)

/-- Auxiliary induction on the fuel: a completed run of the key loop
preserves the viewport invariant. -/
theorem runKeysAux_inv (saveOk : Bool) :
    ∀ (fuel : Nat) (keys : List KeyEvent) (e e' : Editor),
      1 ≤ e.termWidth → 1 ≤ e.termHeight → viewInv e →
      runKeysAux saveOk fuel e keys = some e' → viewInv e' := by
  intro fuel
  induction fuel with
  | zero =>
    intro keys e e' hw hh hinv hr
    cases keys with
    | nil =>
      unfold runKeysAux at hr
      simp only [Option.some.injEq] at hr
      rwa [← hr]
    | cons k rest => unfold runKeysAux at hr; exact absurd hr (by simp)
  | succ n ih =>
    intro keys e e' hw hh hinv hr
    cases keys with
    | nil =>
      unfold runKeysAux at hr
      simp only [Option.some.injEq] at hr
      rwa [← hr]
    | cons k rest =>
      unfold runKeysAux at hr
      split at hr
      · simp only [Option.some.injEq] at hr
        rwa [← hr]
      · split at hr
        · exact absurd hr (by simp)
        · rename_i e₁rest₁ e₁ rest₁ hstep
          obtain ⟨hinv₁, hW, hH⟩ :=
            process_keypress_inv saveOk e k rest e₁ rest₁ hw hh hinv hstep
          exact ih rest₁ e₁ e' (by rw [hW]; exact hw) (by rw [hH]; exact hh) hinv₁ hr

/-- Claim C4: after every cursor-movement command — for every key and
every starting state — the resulting cursor column is at most the length
of the line it lands on (0 for an absent line): the post-transition clamp
`x = min(x, lineLen(y))` of `move_cursor` is applied on every path, and
movement is a total function. -/
theorem move_cursor_column_clamped (d : Document) (th : Nat) (p : Position) (key : KeyCode) :
    (move_cursor d th p key).x ≤ lineLen d (move_cursor d th p key).y ∧
    (move_cursor d th p key).x =
      min (cursorTransition d th p key).x (lineLen d (cursorTransition d th p key).y) ∧
    (move_cursor d th p key).y = (cursorTransition d th p key).y := by
  unfold move_cursor
  dsimp only
  refine ⟨?_, ?_, rfl⟩
  · split <;> omega
  · split <;> omega

/-- Claim C10: `Terminal::read_key` never surfaces an error: whenever the
read loop returns, its result is `Ok` with a key event; an underlying read
failure is silently skipped and the read retried, and so is any non-key
event, so a terminal input failure can never reach the caller. -/
theorem read_key_never_errors :
    (∀ (evs : List ReadResult) (r : Except String KeyEvent),
        read_key evs = some r → ∃ k, r = Except.ok k) ∧
    (∀ (msg : String) (rest : List ReadResult),
        read_key (ReadResult.err msg :: rest) = read_key rest) ∧
    (∀ (t : TEvent) (rest : List ReadResult),
        (∀ k, t ≠ TEvent.key k) →
        read_key (ReadResult.ok t :: rest) = read_key rest) := by
  refine ⟨?_, ?_, ?_⟩
  · intro evs
    induction evs with
    | nil => intro r h; simp [read_key] at h
    | cons a rest ih =>
      intro r h
      rcases a with t | msg
      · rcases t with k | - | - | - | - | -
        · simp only [read_key, Option.some.injEq] at h
          exact ⟨k, h.symm⟩
        all_goals exact ih r (by rw [← h]; rfl)
      · exact ih r (by rw [← h]; rfl)
  · intro msg rest; rfl
  · intro t rest hne
    rcases t with k | - | - | - | - | -
    · exact absurd rfl (hne k)
    all_goals rfl

/-- A concrete key event used by witnesses. -/
def upEvent : KeyEvent := ⟨KeyCode.up, KeyModifiers.NONE⟩

/-- Witness for C10: a stream whose first read fails and whose second
yields a resize event still produces `Ok` with the third read's key. -/
theorem read_key_never_errors_witness :
    read_key [ReadResult.err "boom", ReadResult.ok TEvent.resize,
              ReadResult.ok (TEvent.key upEvent)] = some (Except.ok upEvent) ∧
    (∃ k, (Except.ok upEvent : Except String KeyEvent) = Except.ok k) ∧
    read_key [ReadResult.err "boom", ReadResult.ok TEvent.resize,
              ReadResult.ok (TEvent.key upEvent)] =
      read_key [ReadResult.ok TEvent.resize, ReadResult.ok (TEvent.key upEvent)] :=
  ⟨rfl,
   read_key_never_errors.1
     [ReadResult.err "boom", ReadResult.ok TEvent.resize, ReadResult.ok (TEvent.key upEvent)]
     (Except.ok upEvent) rfl,
   read_key_never_errors.2.1 "boom"
     [ReadResult.ok TEvent.resize, ReadResult.ok (TEvent.key upEvent)]⟩

/-- The Ctrl-Q key event. -/
def ctrlQ : KeyEvent := ⟨KeyCode.char 'q', KeyModifiers.CONTROL⟩

/-- Claim C9: a quit press on a dirty buffer while the confirmation
counter is positive produces exactly the input state with the counter
decremented and the status message replaced by the warning — document
content, dirty flag, cursor, offset and quit flag untouched, the handler
returning before the scroll recomputation and the counter reset. -/
theorem quit_press_frame (saveOk : Bool) (e : Editor) (rest : List KeyEvent)
    (hd : e.document.is_dirty = true) (hq : 0 < e.quit_times) :
    process_keypress saveOk e ctrlQ rest =
      some ({ e with status_message := quitWarning e.quit_times,
                     quit_times := e.quit_times - 1 }, rest) := by
  unfold process_keypress ctrlQ
  simp [hd, hq]

/-- A concrete dirty one-line document for witnesses. -/
def dirtyDoc : Document := ⟨[['h', 'i']], none, true⟩

/-- Witness for C9: the quit warning step on a concrete dirty editor. -/
theorem quit_press_frame_witness :
    process_keypress true (initialEditor 80 24 dirtyDoc) ctrlQ [] =
      some ({ initialEditor 80 24 dirtyDoc with
                status_message := quitWarning 3, quit_times := 2 }, []) :=
  quit_press_frame true (initialEditor 80 24 dirtyDoc) [] rfl (by decide)

/-- Claim C5: after any completed sequence of key presses starting from
the initial editor state, the viewport invariant
`offset ≤ cursor < offset + dimension` holds on both axes (for viewport
dimensions ≥ 1), and one scroll recomputation moves the offset only as
far as needed: an offset past the cursor is pulled back exactly to it, an
offset a full window or more before it is pushed to
`cursor - dimension + 1`, and an offset already containing the cursor is
left unchanged. -/
theorem viewport_invariant (saveOk : Bool) (w h : Nat) (d : Document)
    (keys : List KeyEvent) (e' : Editor)
    (hw : 1 ≤ w) (hh : 1 ≤ h)
    (hrun : runKeys saveOk (initialEditor w h d) keys = some e') :
    viewInv e' ∧
    (∀ (c o : Position),
      (c.y < o.y → (scroll w h c o).y = c.y) ∧
      (o.y + h ≤ c.y → (scroll w h c o).y = c.y - h + 1) ∧
      (o.y ≤ c.y → c.y < o.y + h → (scroll w h c o).y = o.y) ∧
      (c.x < o.x → (scroll w h c o).x = c.x) ∧
      (o.x + w ≤ c.x → (scroll w h c o).x = c.x - w + 1) ∧
      (o.x ≤ c.x → c.x < o.x + w → (scroll w h c o).x = o.x)) := by
  constructor
  · refine runKeysAux_inv saveOk keys.length keys (initialEditor w h d) e' hw hh ?_ hrun
    unfold viewInv initialEditor
    dsimp
    omega
  · intro c o
    unfold scroll
    dsimp only
    refine ⟨?_, ?_, ?_, ?_, ?_, ?_⟩
    · intro h1; split <;> [rfl; omega]
    · intro h1; split
      · omega
      · rfl
    · intro h1 h2; split
      · omega
      · split <;> omega
    · intro h1; split <;> [rfl; omega]
    · intro h1; split
      · omega
      · rfl
    · intro h1 h2; split
      · omega
      · split <;> omega

/-- Witness for C5: the empty key sequence on a concrete 2-by-2 viewport
over the demo document. -/
theorem viewport_invariant_witness :
    viewInv (initialEditor 2 2 dirtyDoc) ∧
    (∀ (c o : Position),
      (c.y < o.y → (scroll 2 2 c o).y = c.y) ∧
      (o.y + 2 ≤ c.y → (scroll 2 2 c o).y = c.y - 2 + 1) ∧
      (o.y ≤ c.y → c.y < o.y + 2 → (scroll 2 2 c o).y = o.y) ∧
      (c.x < o.x → (scroll 2 2 c o).x = c.x) ∧
      (o.x + 2 ≤ c.x → (scroll 2 2 c o).x = c.x - 2 + 1) ∧
      (o.x ≤ c.x → c.x < o.x + 2 → (scroll 2 2 c o).x = o.x)) :=
  viewport_invariant true 2 2 dirtyDoc [] (initialEditor 2 2 dirtyDoc)
    (by decide) (by decide) rfl

/-- `afterKey` never touches the quit flag, the viewport dimensions, the
cursor or the document. -/
theorem afterKey_frame (e : Editor) :
    (afterKey e).should_quit = e.should_quit ∧
    (afterKey e).termWidth = e.termWidth ∧
    (afterKey e).termHeight = e.termHeight ∧
    (afterKey e).cursor_position = e.cursor_position ∧
    (afterKey e).document = e.document := by
  have hf := resetQuit_frame (applyScroll e)
  exact ⟨hf.1, hf.2.1, hf.2.2.1, hf.2.2.2.1, hf.2.2.2.2.2⟩

/-- The offset after `afterKey` is exactly the scroll recomputation from
the (unchanged) cursor. -/
theorem afterKey_offset (e : Editor) :
    (afterKey e).offset = scroll e.termWidth e.termHeight e.cursor_position e.offset :=
  (resetQuit_frame (applyScroll e)).2.2.2.2.1

/-- After `afterKey`, a quit counter that was below its initial value is
back at `QUIT_TIMES`. -/
theorem afterKey_resets (e : Editor) (h : e.quit_times < QUIT_TIMES) :
    (afterKey e).quit_times = QUIT_TIMES := by
  unfold afterKey resetQuit applyScroll
  simp [h]

/-- The Backspace key event. -/
def backspaceEvent : KeyEvent := ⟨KeyCode.backspace, KeyModifiers.NONE⟩

/-- The Delete key event. -/
def deleteEvent : KeyEvent := ⟨KeyCode.delete, KeyModifiers.NONE⟩

/-- Claim C6: Backspace at cursor (0,0) leaves buffer and cursor unchanged;
at any other cursor position Backspace first moves the cursor left (per the
Left transition of `move_cursor`) and then deletes at that new position,
where the cursor stays; Delete-forward deletes at the current position and
leaves the cursor unmoved. -/
theorem backspace_delete_dispatch (saveOk : Bool) (e : Editor) (rest : List KeyEvent) :
    (e.cursor_position = ⟨0, 0⟩ →
      ∃ e', process_keypress saveOk e backspaceEvent rest = some (e', rest) ∧
        e'.document = e.document ∧ e'.cursor_position = e.cursor_position) ∧
    (0 < e.cursor_position.x ∨ 0 < e.cursor_position.y →
      ∃ e', process_keypress saveOk e backspaceEvent rest = some (e', rest) ∧
        e'.cursor_position = move_cursor e.document e.termHeight e.cursor_position .left ∧
        e'.document =
          e.document.delete (move_cursor e.document e.termHeight e.cursor_position .left)) ∧
    (∃ e', process_keypress saveOk e deleteEvent rest = some (e', rest) ∧
        e'.document = e.document.delete e.cursor_position ∧
        e'.cursor_position = e.cursor_position) := by
  refine ⟨?_, ?_, ?_⟩
  · intro h0
    refine ⟨afterKey e, ?_, (afterKey_frame e).2.2.2.2, (afterKey_frame e).2.2.2.1⟩
    unfold process_keypress backspaceEvent
    rw [h0]
    simp
  · intro hx
    refine ⟨afterKey { moveCursorE e KeyCode.left with
        document := (moveCursorE e KeyCode.left).document.delete
          (moveCursorE e KeyCode.left).cursor_position }, ?_, ?_, ?_⟩
    · unfold process_keypress backspaceEvent
      simp [hx]
    · exact (afterKey_frame _).2.2.2.1
    · exact (afterKey_frame _).2.2.2.2
  · exact ⟨afterKey { e with document := e.document.delete e.cursor_position },
      rfl, (afterKey_frame _).2.2.2.2, (afterKey_frame _).2.2.2.1⟩

/-- Witness for C6: the three Backspace/Delete dispatch facts at concrete
editors (cursor at the origin, and cursor at column 1). -/
theorem backspace_delete_dispatch_witness :
    (∃ e', process_keypress true (initialEditor 80 24 dirtyDoc) backspaceEvent [] =
        some (e', []) ∧
      e'.document = (initialEditor 80 24 dirtyDoc).document ∧
      e'.cursor_position = (initialEditor 80 24 dirtyDoc).cursor_position) ∧
    (∃ e', process_keypress true
        { initialEditor 80 24 dirtyDoc with cursor_position := ⟨1, 0⟩ } backspaceEvent [] =
          some (e', []) ∧
      e'.cursor_position = move_cursor dirtyDoc 24 ⟨1, 0⟩ .left ∧
      e'.document = dirtyDoc.delete (move_cursor dirtyDoc 24 ⟨1, 0⟩ .left)) ∧
    (∃ e', process_keypress true (initialEditor 80 24 dirtyDoc) deleteEvent [] =
        some (e', []) ∧
      e'.document = dirtyDoc.delete ⟨0, 0⟩ ∧
      e'.cursor_position = (⟨0, 0⟩ : Position)) :=
  ⟨(backspace_delete_dispatch true (initialEditor 80 24 dirtyDoc) []).1 rfl,
   (backspace_delete_dispatch true
      { initialEditor 80 24 dirtyDoc with cursor_position := ⟨1, 0⟩ } []).2.1
      (Or.inl (by decide)),
   (backspace_delete_dispatch true (initialEditor 80 24 dirtyDoc) []).2.2⟩

/-- The Escape key event. -/
def escEvent : KeyEvent := ⟨KeyCode.esc, KeyModifiers.NONE⟩

/-- Claim C7: a save with no known file name whose prompt is answered with
Escape: the prompt returns no value, the save aborts with status message
"Save aborted.", `Document::save` is never invoked (the invocation flag is
false, and the result is the same for either save-oracle value since the
oracle is universally quantified), and the whole document — dirty flag
included — is left unchanged. -/
theorem save_abort_on_escape (saveOk : Bool) (e : Editor) (rest : List KeyEvent)
    (hf : e.document.file_name = none) (hd : e.document.is_dirty = true) :
    promptRun (escEvent :: rest) = some (none, rest) ∧
    Editor.save saveOk e (escEvent :: rest) =
      some ({ e with status_message := "Save aborted." }, false, rest) ∧
    ({ e with status_message := "Save aborted." } : Editor).document.is_dirty = true := by
  have hp : promptRun (escEvent :: rest) = some (none, rest) := rfl
  refine ⟨hp, ?_, hd⟩
  unfold Editor.save
  rw [hf, hp]

/-- Witness for C7: aborting the save on the concrete dirty, unnamed
document. -/
theorem save_abort_on_escape_witness :
    promptRun [escEvent] = some (none, []) ∧
    Editor.save true (initialEditor 80 24 dirtyDoc) [escEvent] =
      some ({ initialEditor 80 24 dirtyDoc with status_message := "Save aborted." },
        false, []) ∧
    ({ initialEditor 80 24 dirtyDoc with
        status_message := "Save aborted." } : Editor).document.is_dirty = true :=
  save_abort_on_escape true (initialEditor 80 24 dirtyDoc) [] rfl rfl

/-- Claim C8 (code bug): in the prompt loop, the Enter key event — the
named key code the key-event interface of spec §6 delivers for the Enter
key — matches no arm and is silently discarded, so the loop is still
waiting for input afterwards instead of breaking and returning the
accumulated input.  Only a `Char '\n'` event, which the named-key
interface never produces for the Enter key, takes the break path the
claim describes. -/
theorem prompt_enter_ignored :
    promptLoop [⟨KeyCode.enter, KeyModifiers.NONE⟩] ['a'] = none ∧
    promptLoop [] ['a'] = none ∧
    promptLoop [⟨KeyCode.char '\n', KeyModifiers.NONE⟩] ['a'] = some (['a'], []) :=
  ⟨rfl, rfl, rfl⟩

/-- The empty, unnamed, clean starting document. -/
def emptyDoc : Document := ⟨[], none, false⟩

/-- The key sequence h, i, Enter, t, h, e, r, e (Enter as the named key
event the key-event interface delivers for the Enter key, spec §6). -/
def typeScenarioKeys : List KeyEvent :=
  [⟨KeyCode.char 'h', KeyModifiers.NONE⟩, ⟨KeyCode.char 'i', KeyModifiers.NONE⟩,
   ⟨KeyCode.enter, KeyModifiers.NONE⟩,
   ⟨KeyCode.char 't', KeyModifiers.NONE⟩, ⟨KeyCode.char 'h', KeyModifiers.NONE⟩,
   ⟨KeyCode.char 'e', KeyModifiers.NONE⟩, ⟨KeyCode.char 'r', KeyModifiers.NONE⟩,
   ⟨KeyCode.char 'e', KeyModifiers.NONE⟩]

/-- The same sequence with the Enter press replaced by a `Char '\n'`
event — the only event shape whose dispatch arm reaches the
newline-insert path of the buffer. -/
def typeScenarioKeysNl : List KeyEvent :=
  [⟨KeyCode.char 'h', KeyModifiers.NONE⟩, ⟨KeyCode.char 'i', KeyModifiers.NONE⟩,
   ⟨KeyCode.char '\n', KeyModifiers.NONE⟩,
   ⟨KeyCode.char 't', KeyModifiers.NONE⟩, ⟨KeyCode.char 'h', KeyModifiers.NONE⟩,
   ⟨KeyCode.char 'e', KeyModifiers.NONE⟩, ⟨KeyCode.char 'r', KeyModifiers.NONE⟩,
   ⟨KeyCode.char 'e', KeyModifiers.NONE⟩]

/-- Claim C3 (code bug): from the empty buffer, processing
h, i, Enter, t, h, e, r, e leaves ONE line "hithere" with the cursor at
(7,0) — the Enter key event falls into the ignore arm of the dispatch
(`process_keypress` has no arm for the Enter key code; only a `Char '\n'`
event reaches the buffer's newline-split path, as the third conjunct
shows), so the buffer never splits into the claimed lines "hi" and
"there" with cursor (5,1).  The dirty flag does end up true. -/
theorem type_enter_scenario :
    (runKeys true (initialEditor 80 24 emptyDoc) typeScenarioKeys).map
        (fun e => (e.document.rows, e.cursor_position, e.document.is_dirty)) =
      some ([['h', 'i', 't', 'h', 'e', 'r', 'e']], ⟨7, 0⟩, true) ∧
    ([['h', 'i', 't', 'h', 'e', 'r', 'e']] : List Row) ≠ [['h', 'i'], ['t', 'h', 'e', 'r', 'e']] ∧
    (runKeys true (initialEditor 80 24 emptyDoc) typeScenarioKeysNl).map
        (fun e => (e.document.rows, e.cursor_position, e.document.is_dirty)) =
      some ([['h', 'i'], ['t', 'h', 'e', 'r', 'e']], ⟨5, 1⟩, true) :=
  ⟨rfl, by decide, rfl⟩

/-- A five-line document used to exhibit the missing PageDown dispatch. -/
def fiveLineDoc : Document := ⟨[['a'], ['b'], ['c'], ['d'], ['e']], none, false⟩

/-- The PageDown key event. -/
def pageDownEvent : KeyEvent := ⟨KeyCode.pageDown, KeyModifiers.NONE⟩

/-- Counterexample to claim C2 as stated: on a five-line document with
viewport height 2 and the cursor at the origin, the transition table says
PageDown moves the cursor to y = min(0 + 2, 5) = 2, and `move_cursor`
indeed computes (0,2) — but the controller dispatch ignores the PageDown
key press and leaves the cursor at (0,0). -/
theorem nav_dispatch_cex :
    (process_keypress true (initialEditor 3 2 fiveLineDoc) pageDownEvent []).map
        (fun p => p.1.cursor_position) = some ⟨0, 0⟩ ∧
    move_cursor fiveLineDoc 2 ⟨0, 0⟩ KeyCode.pageDown = ⟨0, 2⟩ ∧
    (⟨0, 0⟩ : Position) ≠ ⟨0, 2⟩ :=
  ⟨rfl, rfl, by decide⟩

/-- Claim C2 (amended): only the Up, Down, Left and Right key presses are
dispatched to the `move_cursor` transition table, after which scroll is
recomputed from the new cursor; PageUp, PageDown, Home and End key presses
are NOT dispatched — the cursor stays put and only the scroll
recomputation runs — even though `move_cursor` itself implements the
table's rows for them: PageUp sets y to max(y - H, 0), PageDown sets y to
min(y + H, docLen), Home sets x to 0, End sets x to lineLen(y). -/
theorem nav_dispatch_amended (saveOk : Bool) (e : Editor) (rest : List KeyEvent) (k : KeyCode) :
    (k = KeyCode.up ∨ k = KeyCode.down ∨ k = KeyCode.left ∨ k = KeyCode.right →
      ∃ e', process_keypress saveOk e ⟨k, KeyModifiers.NONE⟩ rest = some (e', rest) ∧
        e'.cursor_position = move_cursor e.document e.termHeight e.cursor_position k ∧
        e'.offset = scroll e.termWidth e.termHeight e'.cursor_position e.offset) ∧
    (k = KeyCode.pageUp ∨ k = KeyCode.pageDown ∨ k = KeyCode.home ∨ k = KeyCode.endKey →
      ∃ e', process_keypress saveOk e ⟨k, KeyModifiers.NONE⟩ rest = some (e', rest) ∧
        e'.cursor_position = e.cursor_position ∧
        e'.offset = scroll e.termWidth e.termHeight e.cursor_position e.offset) ∧
    ((cursorTransition e.document e.termHeight e.cursor_position KeyCode.pageUp).y =
        e.cursor_position.y - e.termHeight ∧
     (cursorTransition e.document e.termHeight e.cursor_position KeyCode.pageDown).y =
        min (e.cursor_position.y + e.termHeight) e.document.len ∧
     (move_cursor e.document e.termHeight e.cursor_position KeyCode.home).x = 0 ∧
     (move_cursor e.document e.termHeight e.cursor_position KeyCode.endKey).x =
        lineLen e.document e.cursor_position.y) := by
  refine ⟨?_, ?_, ?_, ?_, ?_, ?_⟩
  · intro hk
    rcases hk with rfl | rfl | rfl | rfl <;>
      · refine ⟨afterKey (moveCursorE e _), rfl, (afterKey_frame _).2.2.2.1, ?_⟩
        rw [(afterKey_frame _).2.2.2.1]
        exact afterKey_offset (moveCursorE e _)
  · intro hk
    rcases hk with rfl | rfl | rfl | rfl <;>
      exact ⟨afterKey e, rfl, (afterKey_frame e).2.2.2.1, afterKey_offset e⟩
  · unfold cursorTransition
    dsimp only
    split <;> omega
  · unfold cursorTransition
    dsimp only
    split <;> omega
  · unfold move_cursor cursorTransition
    dsimp only
    split <;> omega
  · unfold move_cursor cursorTransition
    dsimp only
    split <;> omega

/-- Witness for the amended C2: the Up press and the (ignored) PageDown
press on the concrete five-line editor. -/
theorem nav_dispatch_amended_witness :
    (∃ e', process_keypress true (initialEditor 3 2 fiveLineDoc)
        ⟨KeyCode.up, KeyModifiers.NONE⟩ [] = some (e', []) ∧
      e'.cursor_position = move_cursor fiveLineDoc 2 ⟨0, 0⟩ KeyCode.up ∧
      e'.offset = scroll 3 2 e'.cursor_position (⟨0, 0⟩ : Position)) ∧
    (∃ e', process_keypress true (initialEditor 3 2 fiveLineDoc)
        ⟨KeyCode.pageDown, KeyModifiers.NONE⟩ [] = some (e', []) ∧
      e'.cursor_position = (⟨0, 0⟩ : Position) ∧
      e'.offset = scroll 3 2 (⟨0, 0⟩ : Position) (⟨0, 0⟩ : Position)) :=
  ⟨(nav_dispatch_amended true (initialEditor 3 2 fiveLineDoc) [] KeyCode.up).1
      (Or.inl rfl),
   (nav_dispatch_amended true (initialEditor 3 2 fiveLineDoc) [] KeyCode.pageDown).2.1
      (Or.inr (Or.inl rfl))⟩

/-- Claim C1: with a dirty buffer and the counter at its initial value 3,
the first Ctrl-Q press and the two after it only warn (after `n ≤ 3`
presses the loop is still running, the counter reads `3 - n` and the
status shows the warning), and the fourth press terminates the run loop;
any completed non-quit command while the counter is below 3 resets it to
3; and a quit press with a clean buffer, or with the counter at 0,
terminates immediately. -/
theorem quit_confirmation (saveOk : Bool) :
    (∀ e : Editor, e.document.is_dirty = true → e.quit_times = 3 → e.should_quit = false →
      (∀ n, 1 ≤ n → n ≤ 3 →
        runKeys saveOk e (List.replicate n ctrlQ) =
          some { e with status_message := quitWarning (4 - n), quit_times := 3 - n }) ∧
      runKeys saveOk e (List.replicate 4 ctrlQ) =
        some { e with should_quit := true,
                      offset := scroll e.termWidth e.termHeight e.cursor_position e.offset,
                      status_message := "", quit_times := 3 }) ∧
    (∀ (e : Editor) (ev : KeyEvent) (rest rest' : List KeyEvent) (e' : Editor),
      ¬(ev.code = KeyCode.char 'q' ∧ ev.modifiers = KeyModifiers.CONTROL) →
      e.quit_times < QUIT_TIMES →
      process_keypress saveOk e ev rest = some (e', rest') →
      e'.quit_times = QUIT_TIMES) ∧
    (∀ (e : Editor) (rest : List KeyEvent),
      e.document.is_dirty = false ∨ e.quit_times = 0 →
      ∃ e', process_keypress saveOk e ctrlQ rest = some (e', rest) ∧
        e'.should_quit = true) := by
  have t3 : (0 : Nat) < 3 := by omega
  have t2 : (0 : Nat) < 2 := by omega
  have t1 : (0 : Nat) < 1 := by omega
  refine ⟨?_, ?_, ?_⟩
  · intro e hd h3 hsq
    obtain ⟨sq, w, hgt, cur, off, doc, st, qt⟩ := e
    simp only at hd h3 hsq
    subst h3
    subst hsq
    constructor
    · intro n h1 h2
      interval_cases n
      · simp [runKeys, runKeysAux, process_keypress, ctrlQ, hd, t3, t2, t1]
      · simp [runKeys, runKeysAux, process_keypress, ctrlQ, hd, t3, t2, t1]
      · simp [runKeys, runKeysAux, process_keypress, ctrlQ, hd, t3, t2, t1]
    · simp [runKeys, runKeysAux, process_keypress, ctrlQ, afterKey, applyScroll, resetQuit,
        QUIT_TIMES, hd, t3, t2, t1]
  · intro e ev rest rest' e' hne hql h
    obtain ⟨code, mods⟩ := ev
    cases code <;> cases mods <;> unfold process_keypress at h <;> dsimp only at h <;>
      first
      | (simp only [Option.some.injEq, Prod.mk.injEq] at h
         obtain ⟨rfl, rfl⟩ := h
         exact afterKey_resets _ hql)
      | (split at h <;>
          (simp only [Option.some.injEq, Prod.mk.injEq] at h
           obtain ⟨rfl, rfl⟩ := h
           exact afterKey_resets _ hql))
      | skip
    rename_i c
    by_cases hcq : c = 'q'
    · exact absurd ⟨by rw [hcq], rfl⟩ hne
    · rw [if_neg hcq] at h
      by_cases hcs : c = 's'
      · rw [if_pos hcs] at h
        rcases hs : Editor.save saveOk e rest with _ | ⟨es, invs, rests⟩
        · rw [hs] at h; simp at h
        · rw [hs] at h
          simp only [Option.some.injEq, Prod.mk.injEq] at h
          obtain ⟨rfl, rfl⟩ := h
          have hqe := (save_frame saveOk _ rest es invs rests hs).2.2.2.2.2
          exact afterKey_resets es (by rw [hqe]; exact hql)
      · rw [if_neg hcs] at h
        simp only [Option.some.injEq, Prod.mk.injEq] at h
        obtain ⟨rfl, rfl⟩ := h
        exact afterKey_resets _ hql
  · intro e rest hor
    refine ⟨afterKey { e with should_quit := true }, ?_, (afterKey_frame _).1⟩
    unfold process_keypress ctrlQ
    rcases hor with hd' | hq0
    · simp [hd']
    · simp [hq0]

/-- Witness for C1: on a concrete dirty editor, three Ctrl-Q presses
leave the loop running with the counter at 0, the fourth press quits, a
completed Up press with the counter at 1 resets it to 3, and a quit press
with the counter at 0 quits at once. -/
theorem quit_confirmation_witness :
    runKeys true (initialEditor 2 2 dirtyDoc) (List.replicate 3 ctrlQ) =
      some { initialEditor 2 2 dirtyDoc with
               status_message := quitWarning (4 - 3), quit_times := 3 - 3 } ∧
    runKeys true (initialEditor 2 2 dirtyDoc) (List.replicate 4 ctrlQ) =
      some { initialEditor 2 2 dirtyDoc with
               should_quit := true,
               offset := scroll 2 2 ⟨0, 0⟩ ⟨0, 0⟩,
               status_message := "", quit_times := 3 } ∧
    ({ initialEditor 2 2 dirtyDoc with
        status_message := "", quit_times := 3 } : Editor).quit_times = QUIT_TIMES ∧
    (∃ e', process_keypress true { initialEditor 2 2 dirtyDoc with quit_times := 0 }
        ctrlQ [] = some (e', []) ∧ e'.should_quit = true) :=
  ⟨(((quit_confirmation true).1 (initialEditor 2 2 dirtyDoc) rfl rfl rfl).1 3
      (by omega) (by omega)),
   ((quit_confirmation true).1 (initialEditor 2 2 dirtyDoc) rfl rfl rfl).2,
   ((quit_confirmation true).2.1
      { initialEditor 2 2 dirtyDoc with quit_times := 1 }
      ⟨KeyCode.up, KeyModifiers.NONE⟩ [] []
      { initialEditor 2 2 dirtyDoc with status_message := "", quit_times := 3 }
      (by decide) (by decide) rfl),
   ((quit_confirmation true).2.2
      { initialEditor 2 2 dirtyDoc with quit_times := 0 } [] (Or.inr rfl))⟩
